import Mathlib

/-!
Verification development for the breast-screening gateway sources.

The definitions below are a shallow embedding of the Python sources under
`src/`: the PACS storage layer and worklist storage layer (`services/storage.py`),
the C-FIND worklist query handler (`services/mwl/c_find.py`), the MPPS
N-CREATE / N-SET procedure-step handlers (`services/mwl/n_create.py`,
`services/mwl/n_set.py`), the C-STORE image receipt handler
(`services/dicom/c_store.py`) with its validator and compression step, and the
upload retry engine (`services/dicom/upload_processor.py`).

Machine integers do not occur (Python integers are unbounded); 32-bit
arithmetic inside SHA-256 is made explicit with `% 2^32`.  Fallible Python
code is embedded with `Except`.  External collaborators (the pynetdicom
transport, pydicom serialisation, the HTTP uploader) are modelled as explicit
function parameters, mirroring the constructor injection used by the sources
and their tests.
-/

namespace Gateway

/-! ## SHA-256 (hashlib.sha256), used by `PACSStorage._compute_storage_path`
and `PACSStorage.store_file` for path derivation and content hashing. -/

namespace Sha256

def M32 : Nat := 4294967296

def rotr (n x : Nat) : Nat := ((x >>> n) ||| (x <<< (32 - n))) % M32

def bsig0 (x : Nat) : Nat := (rotr 2 x) ^^^ (rotr 13 x) ^^^ (rotr 22 x)

def bsig1 (x : Nat) : Nat := (rotr 6 x) ^^^ (rotr 11 x) ^^^ (rotr 25 x)

def ssig0 (x : Nat) : Nat := (rotr 7 x) ^^^ (rotr 18 x) ^^^ (x >>> 3)

def ssig1 (x : Nat) : Nat := (rotr 17 x) ^^^ (rotr 19 x) ^^^ (x >>> 10)

def ch (x y z : Nat) : Nat := (x &&& y) ^^^ ((x ^^^ 4294967295) &&& z)

def maj (x y z : Nat) : Nat := (x &&& y) ^^^ (x &&& z) ^^^ (y &&& z)

def K : List Nat :=
  [1116352408, 1899447441, 3049323471, 3921009573,
   961987163, 1508970993, 2453635748, 2870763221,
   3624381080, 310598401, 607225278, 1426881987,
   1925078388, 2162078206, 2614888103, 3248222580,
   3835390401, 4022224774, 264347078, 604807628,
   770255983, 1249150122, 1555081692, 1996064986,
   2554220882, 2821834349, 2952996808, 3210313671,
   3336571891, 3584528711, 113926993, 338241895,
   666307205, 773529912, 1294757372, 1396182291,
   1695183700, 1986661051, 2177026350, 2456956037,
   2730485921, 2820302411, 3259730800, 3345764771,
   3516065817, 3600352804, 4094571909, 275423344,
   430227734, 506948616, 659060556, 883997877,
   958139571, 1322822218, 1537002063, 1747873779,
   1955562222, 2024104815, 2227730452, 2361852424,
   2428436474, 2756734187, 3204031479, 3329325298]

def lenBytes (n : Nat) : List Nat :=
  [(n >>> 56) &&& 255, (n >>> 48) &&& 255, (n >>> 40) &&& 255, (n >>> 32) &&& 255,
   (n >>> 24) &&& 255, (n >>> 16) &&& 255, (n >>> 8) &&& 255, n &&& 255]

def padBytes (msg : List Nat) : List Nat :=
  let L := msg.length
  let k := (64 - ((L + 9) % 64)) % 64
  msg ++ [128] ++ List.replicate k 0 ++ lenBytes (8 * L)

def toWords : List Nat → List Nat
  | b0 :: b1 :: b2 :: b3 :: rest => (((b0 * 256 + b1) * 256 + b2) * 256 + b3) :: toWords rest
  | _ => []

def chunk16 : Nat → List Nat → List (List Nat)
  | 0, _ => []
  | _, [] => []
  | fuel + 1, ws => ws.take 16 :: chunk16 fuel (ws.drop 16)

def schedStep (w : List Nat) : List Nat :=
  let n := w.length
  let x := (ssig1 (w.getD (n - 2) 0) + w.getD (n - 7) 0 +
            ssig0 (w.getD (n - 15) 0) + w.getD (n - 16) 0) % M32
  w ++ [x]

def sched : Nat → List Nat → List Nat
  | 0, w => w
  | k + 1, w => sched k (schedStep w)

def schedule (block : List Nat) : List Nat := sched 48 block

structure Hash8 where
  a : Nat
  b : Nat
  c : Nat
  d : Nat
  e : Nat
  f : Nat
  g : Nat
  h : Nat
deriving DecidableEq, Repr

def roundStep (st : Hash8) (kw : Nat × Nat) : Hash8 :=
  let t1 := (st.h + bsig1 st.e + ch st.e st.f st.g + kw.1 + kw.2) % M32
  let t2 := (bsig0 st.a + maj st.a st.b st.c) % M32
  ⟨(t1 + t2) % M32, st.a, st.b, st.c, (st.d + t1) % M32, st.e, st.f, st.g⟩

def compressBlock (st : Hash8) (block : List Nat) : Hash8 :=
  let w := schedule block
  let z := (K.zip w).foldl roundStep st
  ⟨(st.a + z.a) % M32, (st.b + z.b) % M32, (st.c + z.c) % M32, (st.d + z.d) % M32,
   (st.e + z.e) % M32, (st.f + z.f) % M32, (st.g + z.g) % M32, (st.h + z.h) % M32⟩

def hashBlocks (st : Hash8) : List (List Nat) → Hash8
  | [] => st
  | b :: bs => hashBlocks (compressBlock st b) bs

def initH : Hash8 :=
  ⟨1779033703, 3144134277, 1013904242, 2773480762,
   1359893119, 2600822924, 528734635, 1541459225⟩

def sha256Words (msg : List Nat) : List Nat :=
  let ws := toWords (padBytes msg)
  let st := hashBlocks initH (chunk16 ws.length ws)
  [st.a, st.b, st.c, st.d, st.e, st.f, st.g, st.h]

def hexDigit (n : Nat) : Char :=
  if n < 10 then Char.ofNat (48 + n) else Char.ofNat (87 + n)

def wordHex (w : Nat) : List Char :=
  (List.range 8).map (fun i => hexDigit ((w >>> (4 * (7 - i))) &&& 15))

def sha256Hex (msg : List Nat) : String :=
  String.mk ((sha256Words msg).foldr (fun w acc => wordHex w ++ acc) [])

end Sha256

/-- Byte sequence of an (ASCII) Python string, as produced by `str.encode()`.
All identifiers hashed by the sources (DICOM UIDs) are ASCII. -/
def strBytes (s : String) : List Nat := s.data.map Char.toNat

/-- Sanity check of the SHA-256 embedding against the standard `abc` vector. -/
theorem sha256_abc_vector :
    Sha256.sha256Hex (strBytes "abc") =
      "ba7816bf8f01cfea414140de5dae2223b00361a396177a9cb410ff61f20015ad" := by
  decide

/-- Sanity check: the digest of `foo` used by
`test_store_instance_saves_to_db` in the repository test-suite. -/
theorem sha256_foo_vector :
    Sha256.sha256Hex (strBytes "foo") =
      "2c26b46b68ffc68ff99b453c1d30413413422d706483bfa0f98a5e886266e7ae" := by
  decide

/-! ## DICOM status codes

`services/dicom/__init__.py`, which exports these constants to the handlers
and to the repository tests, is not among the sources; the values are modelled
from the spec (§6: pending 0xFF00, success 0x0000, failure 0xC000, and a
distinct conventional code for each rejection kind of the procedure-step
surface) and pinned by the tests `test_success_hexcode`/`test_failure_hexcode`. -/

/-- Modelled from the spec: the SUCCESS status code (0x0000) exported by the
missing `services/dicom/__init__.py`. -/
def SUCCESS : Nat := 0x0000

/-- Modelled from the spec: the PENDING status code (0xFF00) exported by the
missing `services/dicom/__init__.py`. -/
def PENDING : Nat := 0xFF00

/-- Modelled from the spec: the FAILURE status code (0xC000) exported by the
missing `services/dicom/__init__.py`. -/
def FAILURE : Nat := 0xC000

/-- Modelled from the spec: the missing-attribute rejection code of the
procedure-step surface (conventional value 0x0120). -/
def MISSING_ATTRIBUTE : Nat := 0x0120

/-- Modelled from the spec: the invalid-attribute rejection code of the
procedure-step surface (conventional value 0x0106). -/
def INVALID_ATTRIBUTE : Nat := 0x0106

/-- Modelled from the spec: the duplicate-instance rejection code of the
procedure-step surface (conventional value 0x0111). -/
def DUPLICATE_SOP_INSTANCE : Nat := 0x0111

/-- Modelled from the spec: the unknown-instance rejection code of the
procedure-step surface (conventional value 0x0112). -/
def UNKNOWN_SOP_INSTANCE : Nat := 0x0112

/-- Modelled from the spec: the generic processing-failure code of the
procedure-step surface (conventional value 0x0110). -/
def PROCESSING_FAILURE : Nat := 0x0110

/-- Python-level exceptions that the embedded code can raise. -/
inductive PyErr where
  | typeError
  | attributeError
  | nameError
  | storageError
deriving DecidableEq, Repr

/-! ## Worklist data model and `MWLStorage` (storage.py lines 280-523) -/

/-- The `WorklistItem` dataclass (storage.py lines 280-301).  Optional
columns are `Option`; a SQL NULL is `none`. -/
structure WorklistItem where
  accession_number : String
  modality : String
  patient_birth_date : String
  patient_id : String
  patient_name : String
  scheduled_date : String
  scheduled_time : String
  status : String := "SCHEDULED"
  source_message_id : Option String := none
  study_instance_uid : Option String := none
  procedure_code : Option String := none
  patient_sex : Option String := none
  study_description : Option String := none
  mpps_instance_uid : Option String := none
deriving DecidableEq, Repr

/-- The `worklist_items` table: rows in insertion order. -/
structure MWLState where
  items : List WorklistItem
deriving DecidableEq, Repr

/-- The four `MWLStatus` enum values (services/mwl/__init__.py). -/
def MWLStatus.SCHEDULED : String := "SCHEDULED"

/-- `MWLStatus.IN_PROGRESS.value` (note the space, not an underscore). -/
def MWLStatus.IN_PROGRESS : String := "IN PROGRESS"

/-- `MWLStatus.COMPLETED.value`. -/
def MWLStatus.COMPLETED : String := "COMPLETED"

/-- `MWLStatus.DISCONTINUED.value`. -/
def MWLStatus.DISCONTINUED : String := "DISCONTINUED"

/-- The per-row effect of the UPDATE statement in `MWLStorage.update_status`:
set the status and COALESCE the MPPS identifier on rows whose accession number
matches; leave other rows alone. -/
def applyStatus (accession_number status : String) (mpps_instance_uid : Option String)
    (r : WorklistItem) : WorklistItem :=
  if r.accession_number = accession_number then
    { r with
        status := status
        mpps_instance_uid :=
          match mpps_instance_uid with
          | some u => some u
          | none => r.mpps_instance_uid }
  else r

/-- `MWLStorage.update_status` (storage.py lines 424-458).  The UPDATE touches
every row whose accession number matches, COALESCE keeps the stored MPPS
identifier when the argument is NULL, and the return value is the Python
`None`-conflating one: `none` both when no row matched and when the matched
row's `source_message_id` is NULL. -/
def update_status (s : MWLState) (accession_number status : String)
    (mpps_instance_uid : Option String) : Option String × MWLState :=
  let rowcount := (s.items.filter (fun r => r.accession_number = accession_number)).length
  let items := s.items.map (applyStatus accession_number status mpps_instance_uid)
  if rowcount = 0 then (none, s)
  else
    match items.find? (fun r => r.accession_number = accession_number) with
    | some r => (r.source_message_id, ⟨items⟩)
    | none => (none, ⟨items⟩)

/-- `MWLStorage.mpps_instance_exists` (storage.py lines 519-523). -/
def mpps_instance_exists (s : MWLState) (uid : String) : Bool :=
  s.items.any (fun r => r.mpps_instance_uid = some uid)

/-- Modelled from the spec: `MWLStorage.get_worklist_item_by_mpps_instance_uid`
is called by the N-SET handler and exercised by the repository unit tests
(`test_get_worklist_item_by_mpps_instance_uid`), but its definition is not
among the sources.  Per §4.3 of the spec it resolves the worklist record whose
step-instance (MPPS) identifier equals the requested identifier, and is absent
when no such record exists; a NULL requested identifier matches no row. -/
def get_worklist_item_by_mpps_instance_uid (s : MWLState) (uid : Option String) :
    Option WorklistItem :=
  match uid with
  | none => none
  | some u => s.items.find? (fun r => r.mpps_instance_uid = some u)

/-- `MWLStorage.get_source_message_id` (storage.py lines 507-517): `none` when
the row is absent, or when the stored value is NULL or empty (the Python
truthiness check `if row and row[...]`). -/
def get_source_message_id (s : MWLState) (accession_number : String) : Option String :=
  match s.items.find? (fun r => r.accession_number = accession_number) with
  | none => none
  | some r =>
    match r.source_message_id with
    | none => none
    | some m => if m = "" then none else some m

/-! ## MPPS handlers (services/mwl/n_create.py, services/mwl/n_set.py) -/

/-- Python `str.upper()` (ASCII inputs): uppercase every character. -/
def pyUpper (s : String) : String := String.mk (s.data.map Char.toUpper)

/-- One entry of the `ScheduledStepAttributesSequence`; the handler only reads
`sps.get("AccessionNumber")`. -/
structure SPSEntry where
  accession_number : Option String
deriving DecidableEq, Repr

/-- The N-CREATE request attributes read by `NCreate.call`. -/
structure NCreateRequest where
  affected_sop_instance_uid : Option String
  performed_procedure_step_status : Option String
  scheduled_step_attributes_sequence : List SPSEntry
deriving DecidableEq, Repr

/-- `NCreate.call` (n_create.py lines 18-75): the precondition chain, then the
status update keyed by the first scheduled-step accession number.  The handler
returns SUCCESS whether or not the accession matched a stored record (absence
is only logged).  The echoed response dataset carries no stored state and is
dropped from the embedding. -/
def n_create (s : MWLState) (req : NCreateRequest) : Nat × MWLState :=
  match req.affected_sop_instance_uid with
  | none => (INVALID_ATTRIBUTE, s)
  | some uid =>
    if mpps_instance_exists s uid then (DUPLICATE_SOP_INSTANCE, s)
    else
      match req.performed_procedure_step_status with
      | none => (MISSING_ATTRIBUTE, s)
      | some st =>
        if st = "" then (MISSING_ATTRIBUTE, s)
        else if pyUpper st ≠ MWLStatus.IN_PROGRESS then (INVALID_ATTRIBUTE, s)
        else
          match req.scheduled_step_attributes_sequence with
          | [] => (MISSING_ATTRIBUTE, s)
          | sps :: _ =>
            match sps.accession_number with
            | none => (MISSING_ATTRIBUTE, s)
            | some acc =>
              if acc = "" then (MISSING_ATTRIBUTE, s)
              else (SUCCESS, (update_status s acc MWLStatus.IN_PROGRESS (some uid)).2)

/-- The N-SET request attributes read by `NSet.call`: the requested
step-instance identifier and the modification list's status value. -/
structure NSetRequest where
  requested_sop_instance_uid : Option String
  performed_procedure_step_status : Option String
deriving DecidableEq, Repr

/-- `NSet.call` (n_set.py lines 18-59): status present and exactly COMPLETED
or DISCONTINUED, then the record is resolved by its MPPS identifier, then the
status update keyed by that record's accession number.  The handler's final
truthiness check `if source_message_id` sends both a missed update and a
NULL/empty stored correlation id to PROCESSING_FAILURE. -/
def n_set (s : MWLState) (req : NSetRequest) : Nat × MWLState :=
  match req.performed_procedure_step_status with
  | none => (MISSING_ATTRIBUTE, s)
  | some st =>
    if st = "" then (MISSING_ATTRIBUTE, s)
    else if ¬(st = MWLStatus.COMPLETED ∨ st = MWLStatus.DISCONTINUED) then
      (INVALID_ATTRIBUTE, s)
    else
      match get_worklist_item_by_mpps_instance_uid s req.requested_sop_instance_uid with
      | none => (UNKNOWN_SOP_INSTANCE, s)
      | some item =>
        let r := update_status s item.accession_number st none
        match r.1 with
        | none => (PROCESSING_FAILURE, r.2)
        | some m => if m = "" then (PROCESSING_FAILURE, r.2) else (SUCCESS, r.2)

/-! ## C-FIND worklist handler (services/mwl/c_find.py) -/

/-- Python subscript `item[key]` applied to a `WorklistItem`: the dataclass
defines no `__getitem__`, so every subscript raises TypeError.
`CFindHandler._build_worklist_response` performs such subscripts on the
`WorklistItem` instances produced by `MWLStorage.find_worklist_items`. -/
def WorklistItem.getItem (_ : WorklistItem) (_ : String) : Except PyErr String :=
  .error .typeError

/-- Python `item.keys()` applied to a `WorklistItem`: the dataclass has no
`keys` method, so the call raises AttributeError. -/
def WorklistItem.pyKeys (_ : WorklistItem) : Except PyErr (List String) :=
  .error .attributeError

/-- The pydicom response `Dataset` assembled by the worklist response builder:
the flat top-level fields plus the single scheduled-procedure-step item.
A field never assigned is `none`. -/
structure MwlDataset where
  patient_id : Option String := none
  patient_name : Option String := none
  patient_birth_date : Option String := none
  patient_sex : Option String := none
  accession_number : Option String := none
  study_instance_uid : Option String := none
  study_description : Option String := none
  requested_procedure_id : Option String := none
  sps_description : Option String := none
  sps_id : Option String := none
  sps_start_date : Option String := none
  sps_start_time : Option String := none
  sps_modality : Option String := none
deriving DecidableEq, Repr

/-- `CFindHandler._build_worklist_response` (c_find.py lines 79-112),
translated line by line.  The handler is handed the `WorklistItem` dataclass
instances returned by `find_worklist_items`, yet its body reads them with
sqlite3.Row-style mapping access (`item["patient_id"]`, `item.keys()`); the
very first subscript raises TypeError, so the builder never returns a
dataset.  (Were the items mapping-like rows of the SELECT, `"patient_sex" in
item.keys()` would test column presence — always true for the selected
columns — rather than value presence.) -/
def build_worklist_response (item : WorklistItem) : Except PyErr MwlDataset := do
  let pid ← item.getItem "patient_id"
  let pname ← item.getItem "patient_name"
  let pbirth ← item.getItem "patient_birth_date"
  let ds0 : MwlDataset :=
    { patient_id := some pid, patient_name := some pname,
      patient_birth_date := some pbirth }
  let ks ← item.pyKeys
  let ds1 ←
    if "patient_sex" ∈ ks then do
      let v ← item.getItem "patient_sex"
      pure { ds0 with patient_sex := some v }
    else pure ds0
  let acc ← item.getItem "accession_number"
  let ds2 : MwlDataset := { ds1 with accession_number := some acc }
  let ds3 ←
    if "study_instance_uid" ∈ ks then do
      let v ← item.getItem "study_instance_uid"
      pure { ds2 with study_instance_uid := some v }
    else pure ds2
  let ds4 ←
    if "study_description" ∈ ks then do
      let v ← item.getItem "study_description"
      pure { ds3 with study_description := some v, sps_description := some v }
    else pure ds3
  let ds5 ←
    if "procedure_code" ∈ ks then do
      let v ← item.getItem "procedure_code"
      pure { ds4 with requested_procedure_id := some v, sps_id := some v }
    else pure ds4
  let sdate ← item.getItem "scheduled_date"
  let stime ← item.getItem "scheduled_time"
  let smod ← item.getItem "modality"
  pure { ds5 with
           sps_start_date := some sdate, sps_start_time := some stime,
           sps_modality := some smod }

/-- The loop body of `CFindHandler.call` (c_find.py lines 60-64): build and
yield a `(PENDING, dataset)` pair per item; an exception raised by the builder
aborts the loop (second component `false`) with the pairs yielded so far. -/
def cFindEmit {α : Type} (build : WorklistItem → Except PyErr α) :
    List WorklistItem → List (Nat × Option α) × Bool
  | [] => ([], true)
  | i :: rest =>
    match build i with
    | .error _ => ([], false)
    | .ok ds =>
      let r := cFindEmit build rest
      ((PENDING, some ds) :: r.1, r.2)

/-- `CFindHandler.call` (c_find.py lines 26-68) as the list of `(status,
dataset)` pairs the generator yields.  The storage lookup (the injected
`MWLStorage.find_worklist_items`, mocked the same way by the repository unit
tests) and the response builder are the two operations of the guarded region;
an exception in either falls to the single `except` clause, which yields one
terminal `(FAILURE, None)` pair, while a clean run ends with one terminal
`(SUCCESS, None)` pair. -/
def cFindCall {α : Type} (lookup : Except PyErr (List WorklistItem))
    (build : WorklistItem → Except PyErr α) : List (Nat × Option α) :=
  match lookup with
  | .error _ => [(FAILURE, none)]
  | .ok items =>
    let r := cFindEmit build items
    r.1 ++ [if r.2 then ((SUCCESS : Nat), (none : Option α)) else (FAILURE, none)]

/-! ## PACS data model and `PACSStorage` (storage.py lines 63-277) -/

/-- One row of the `stored_instances` table.  The `created_at` column (schema
default CURRENT_TIMESTAMP) is modelled with a monotone counter so that
`ORDER BY created_at ASC` is list order. -/
structure StoredInstance where
  sop_instance_uid : String
  storage_path : String
  file_size : Nat
  storage_hash : String
  patient_id : Option String
  patient_name : Option String
  accession_number : Option String
  source_aet : String
  status : String
  upload_status : String
  upload_error : Option String
  upload_attempt_count : Nat
  last_upload_attempt : Option Nat
  uploaded_at : Option Nat
  created_at : Nat
deriving DecidableEq, Repr

/-- The PACS durable state: the `stored_instances` rows (in `created_at`
order), the blob files on disk keyed by their storage-root-relative path, and
the timestamp counter. -/
structure PACSState where
  instances : List StoredInstance
  files : List (String × List Nat)
  clock : Nat
deriving DecidableEq, Repr

/-- `PACSStorage._compute_storage_path` (storage.py lines 84-100): the SHA-256
hex digest of the (encoded) SOP instance UID string, fanned out as
`hex[:2]/hex[2:4]/hex[:16].dcm`. -/
def compute_storage_path (sop_instance_uid : String) : String :=
  let hex := Sha256.sha256Hex (strBytes sop_instance_uid)
  hex.take 2 ++ "/" ++ (hex.drop 2).take 2 ++ "/" ++ hex.take 16 ++ ".dcm"

/-- `Path.write_bytes`: create or overwrite the file at `path`. -/
def writeFile (files : List (String × List Nat)) (path : String) (data : List Nat) :
    List (String × List Nat) :=
  if files.any (fun f => f.1 = path) then
    files.map (fun f => if f.1 = path then (path, data) else f)
  else files ++ [(path, data)]

/-- `PACSStorage.store_file` (storage.py lines 164-178): write the bytes at
the hash-derived relative path and return (state, relative path, size,
content hash).  The constant storage-root prefix of the absolute path is
dropped from the embedding. -/
def store_file (s : PACSState) (sop_instance_uid : String) (file_data : List Nat) :
    PACSState × String × Nat × String :=
  let rel_path := compute_storage_path sop_instance_uid
  ({ s with files := writeFile s.files rel_path file_data },
   rel_path, file_data.length, Sha256.sha256Hex file_data)

/-- `PACSStorage.instance_exists` (storage.py lines 156-162). -/
def instance_exists (s : PACSState) (sop_instance_uid : String) : Bool :=
  s.instances.any (fun r => r.sop_instance_uid = sop_instance_uid ∧ r.status = "STORED")

/-- The metadata dict handed to `store_instance` (`metadata.get(...)` reads). -/
structure InstanceMetadata where
  patient_id : Option String
  patient_name : Option String
  accession_number : Option String
deriving DecidableEq, Repr

/-- The two ways `store_instance` can raise: `InstanceExistsError`, or the
metadata INSERT failing (any `sqlite3` error on the second connection). -/
inductive StoreErr where
  | instanceExists
  | dbError
deriving DecidableEq, Repr

/-- `PACSStorage.store_instance` (storage.py lines 102-154): existence check,
then the file write (`store_file`), then the metadata INSERT on a separate
connection.  `insertOk = false` models the INSERT raising, in which case the
exception propagates with the file already on disk and no row created.  The
`upload_status`/`upload_attempt_count` columns are absent from the INSERT
column list; their PENDING/0 defaults come from the schema script
`init_pacs_db.sql`, which is not among the sources — modelled from the spec
(§3: upload status defaults to PENDING). -/
def store_instance (s : PACSState) (sop_instance_uid : String) (file_data : List Nat)
    (metadata : InstanceMetadata) (source_aet : String) (insertOk : Bool) :
    Except StoreErr String × PACSState :=
  if instance_exists s sop_instance_uid then (.error .instanceExists, s)
  else
    let sf := store_file s sop_instance_uid file_data
    let s1 := sf.1
    if insertOk then
      let row : StoredInstance :=
        { sop_instance_uid := sop_instance_uid
          storage_path := sf.2.1
          file_size := sf.2.2.1
          storage_hash := sf.2.2.2
          patient_id := metadata.patient_id
          patient_name := metadata.patient_name
          accession_number := metadata.accession_number
          source_aet := source_aet
          status := "STORED"
          upload_status := "PENDING"
          upload_error := none
          upload_attempt_count := 0
          last_upload_attempt := none
          uploaded_at := none
          created_at := s1.clock }
      (.ok sf.2.1, { s1 with instances := s1.instances ++ [row], clock := s1.clock + 1 })
    else (.error .dbError, s1)

/-- The Boolean row filter of `PACSStorage.get_pending_uploads`
(storage.py lines 216-232). -/
def pendingPred (max_retries : Nat) (r : StoredInstance) : Bool :=
  r.upload_status = "PENDING" ∧ r.status = "STORED" ∧
    r.upload_attempt_count < max_retries

/-- `PACSStorage.get_pending_uploads` (storage.py lines 216-232): PENDING and
STORED rows under the attempt cap, oldest first, limited.  (The SQL projects a
subset of columns; the embedding returns whole rows and projects at the call
site.) -/
def get_pending_uploads (s : PACSState) (limit max_retries : Nat) :
    List StoredInstance :=
  (s.instances.filter (pendingPred max_retries)).take limit

/-- The per-row effect of the UPDATE in `mark_upload_started`. -/
def startedRow (clock : Nat) (sop_instance_uid : String) (r : StoredInstance) :
    StoredInstance :=
  if r.sop_instance_uid = sop_instance_uid then
    { r with
        upload_status := "UPLOADING"
        last_upload_attempt := some clock
        upload_attempt_count := r.upload_attempt_count + 1 }
  else r

/-- `PACSStorage.mark_upload_started` (storage.py lines 234-247). -/
def mark_upload_started (s : PACSState) (sop_instance_uid : String) : PACSState :=
  { s with instances := s.instances.map (startedRow s.clock sop_instance_uid) }

/-- The per-row effect of the UPDATE in `mark_upload_complete`. -/
def completeRow (clock : Nat) (sop_instance_uid : String) (r : StoredInstance) :
    StoredInstance :=
  if r.sop_instance_uid = sop_instance_uid then
    { r with
        upload_status := "COMPLETE"
        uploaded_at := some clock
        upload_error := none }
  else r

/-- `PACSStorage.mark_upload_complete` (storage.py lines 249-262). -/
def mark_upload_complete (s : PACSState) (sop_instance_uid : String) : PACSState :=
  { s with instances := s.instances.map (completeRow s.clock sop_instance_uid) }

/-- Python `error[:500]`: the first 500 characters. -/
def truncate500 (error : String) : String := String.mk (error.data.take 500)

/-- The per-row effect of the UPDATE in `mark_upload_failed`. -/
def failedRow (sop_instance_uid error : String) (permanent : Bool)
    (r : StoredInstance) : StoredInstance :=
  if r.sop_instance_uid = sop_instance_uid then
    { r with
        upload_status := if permanent then "FAILED" else "PENDING"
        upload_error := some (truncate500 error) }
  else r

/-- `PACSStorage.mark_upload_failed` (storage.py lines 264-277): FAILED when
permanent, otherwise back to PENDING, with the error text truncated to 500
characters. -/
def mark_upload_failed (s : PACSState) (sop_instance_uid error : String)
    (permanent : Bool) : PACSState :=
  { s with instances := s.instances.map (failedRow sop_instance_uid error permanent) }

/-! ## DICOM datasets, validator and compressor
(services/dicom/validator.py, services/dicom/image_compressor.py) -/

/-- The pydicom `file_meta` attributes read by the handlers. -/
structure FileMeta where
  media_storage_sop_class_uid : String
  transfer_syntax_uid : String
deriving DecidableEq, Repr

/-- The pydicom dataset attributes read by the C-STORE pipeline.  An attribute
that is absent or `None` is `none` (`hasattr`/`get` both see it that way for
the falsy checks the sources perform). -/
structure DicomDataset where
  sop_instance_uid : Option String := none
  patient_id : Option String := none
  patient_name : Option String := none
  accession_number : Option String := none
  study_instance_uid : Option String := none
  sop_class_uid : Option String := none
  pixel_data : Option (List Nat) := none
  rows : Option Nat := none
  columns : Option Nat := none
  bits_allocated : Option Nat := none
  file_meta : FileMeta
deriving DecidableEq, Repr

/-- A validation failure (`DicomValidationError`) with the offending check. -/
inductive DicomValidationError where
  | missingTag (tag : String)
  | missingImageTag (tag : String)
  | tooSmall
  | badMarker
deriving DecidableEq, Repr

/-- Python falsiness of an optional string value (`if not value`): absent,
`None` or empty. -/
def falsyStr : Option String → Bool
  | none => true
  | some s => s = ""

/-- `DicomValidator.validate_dataset` (validator.py lines 21-26): the four
REQUIRED_TAGS, in order, must be present and non-falsy. -/
def validate_dataset (ds : DicomDataset) : Except DicomValidationError Unit :=
  if falsyStr ds.sop_instance_uid then .error (.missingTag "SOPInstanceUID")
  else if falsyStr ds.patient_id then .error (.missingTag "PatientID")
  else if falsyStr ds.study_instance_uid then .error (.missingTag "StudyInstanceUID")
  else if falsyStr ds.sop_class_uid then .error (.missingTag "SOPClassUID")
  else .ok ()

/-- `DicomValidator.validate_pixel_data` (validator.py lines 38-46): nothing
to check without pixel data; otherwise Rows, Columns and BitsAllocated must be
present (`hasattr`, presence not truthiness). -/
def validate_pixel_data (ds : DicomDataset) : Except DicomValidationError Unit :=
  match ds.pixel_data with
  | none => .ok ()
  | some _ =>
    if ds.rows.isNone then .error (.missingImageTag "Rows")
    else if ds.columns.isNone then .error (.missingImageTag "Columns")
    else if ds.bits_allocated.isNone then .error (.missingImageTag "BitsAllocated")
    else .ok ()

/-- The `DICM` magic marker bytes after the 128-byte preamble. -/
def dicmMarker : List Nat := [68, 73, 67, 77]

/-- `DicomValidator.validate_bytes` (validator.py lines 28-36): minimum length
128 + 4, and the 4 bytes at offset 128 must equal the marker. -/
def validate_bytes (data : List Nat) : Except DicomValidationError Unit :=
  if data.length < 132 then .error .tooSmall
  else if (data.drop 128).take 4 ≠ dicmMarker then .error .badMarker
  else .ok ()

/-- `ImageCompressor.compress` (image_compressor.py lines 25-73).  With pixel
data absent or `None` the dataset is returned unchanged (lines 35-37).
Otherwise line 42 evaluates the module-level name
UNCOMPRESSED_TRANSFER_SYNTAXES, which is neither defined nor imported
anywhere in the module, so the interpreter raises NameError there — before
any of the try/except-guarded decompress, resize and compress stages can run;
they are unreachable as the module stands. -/
def compress (ds : DicomDataset) : Except PyErr DicomDataset :=
  match ds.pixel_data with
  | none => .ok ds
  | some _ => .error .nameError

/-! ## C-STORE handler (services/dicom/c_store.py) -/

/-- `DigitalMammographyXRayImageStorageForPresentation` (pynetdicom). -/
def MammoForPresentation : String := "1.2.840.10008.5.1.4.1.1.1.2"

/-- `DigitalMammographyXRayImageStorageForProcessing` (pynetdicom). -/
def MammoForProcessing : String := "1.2.840.10008.5.1.4.1.1.1.2.1"

/-- `CStore.VALID_SOP_CLASSES` (c_store.py lines 20-23). -/
def VALID_SOP_CLASSES : List String := [MammoForPresentation, MammoForProcessing]

/-- The parts of a pynetdicom C-STORE event the handler reads. -/
structure CStoreEvent where
  dataset : DicomDataset
  file_meta : FileMeta
  requestor_ae_title : String
deriving DecidableEq, Repr

/-- The arguments of the eventual `store_instance` call. -/
structure PreparedStore where
  sop_instance_uid : String
  dicom_bytes : List Nat
  metadata : InstanceMetadata
  source_aet : String
deriving DecidableEq, Repr

/-- The state-independent early-return chain of `CStore.call` (c_store.py
lines 36-74): SOP class gate, SOPInstanceUID and PatientID falsy gates,
`validate_dataset`/`validate_pixel_data`, the compression step (whose raised
exception falls to the outer generic handler), serialisation (`serialize`
stands for the external `pydicom.dcmwrite` with `enforce_file_format=True`)
and `validate_bytes`.  `none` means some gate returned FAILURE. -/
def c_store_prepare (serialize : DicomDataset → List Nat) (event : CStoreEvent) :
    Option PreparedStore :=
  let ds := { event.dataset with file_meta := event.file_meta }
  if ds.file_meta.media_storage_sop_class_uid ∉ VALID_SOP_CLASSES then none
  else
    match ds.sop_instance_uid.getD "" with
    | "" => none
    | sop_instance_uid =>
      if falsyStr ds.patient_id then none
      else
        let accession_number := ds.accession_number.getD ""
        let patient_name := ds.patient_name.getD ""
        match validate_dataset ds with
        | .error _ => none
        | .ok _ =>
          match validate_pixel_data ds with
          | .error _ => none
          | .ok _ =>
            match compress ds with
            | .error _ => none
            | .ok compressed_ds =>
              let dicom_bytes := serialize compressed_ds
              match validate_bytes dicom_bytes with
              | .error _ => none
              | .ok _ =>
                some { sop_instance_uid := sop_instance_uid
                       dicom_bytes := dicom_bytes
                       metadata :=
                         { patient_id := ds.patient_id
                           patient_name := some patient_name
                           accession_number := some accession_number }
                       source_aet := event.requestor_ae_title }

/-- `CStore.call` (c_store.py lines 35-95): every early return and every
exception reaching the outer handler yields FAILURE with the state untouched;
`InstanceExistsError` from the store is caught and converted to SUCCESS
(idempotent re-delivery); any other storage error yields FAILURE (with
whatever partial state the raising operation left behind). -/
def c_store_call (serialize : DicomDataset → List Nat) (s : PACSState)
    (event : CStoreEvent) (insertOk : Bool) : Nat × PACSState :=
  match c_store_prepare serialize event with
  | none => (FAILURE, s)
  | some p =>
    match store_instance s p.sop_instance_uid p.dicom_bytes p.metadata p.source_aet insertOk with
    | (.ok _, s1) => (SUCCESS, s1)
    | (.error .instanceExists, s1) => (SUCCESS, s1)
    | (.error .dbError, s1) => (FAILURE, s1)

/-! ## Upload retry engine (services/dicom/upload_processor.py) -/

/-- The row projection handed to `upload_instance` by `process_batch` (the
columns selected by `get_pending_uploads`). -/
structure UploadItem where
  sop_instance_uid : String
  storage_path : String
  accession_number : Option String
  upload_attempt_count : Nat
deriving DecidableEq, Repr

/-- Project a stored row onto the selected columns. -/
def toUploadItem (r : StoredInstance) : UploadItem :=
  { sop_instance_uid := r.sop_instance_uid
    storage_path := r.storage_path
    accession_number := r.accession_number
    upload_attempt_count := r.upload_attempt_count }

/-- The external HTTP uploader `DICOMUploader.upload_dicom`:
`.ok b` is its Boolean verdict, `.error msg` a raised exception. -/
def UploaderFn : Type := String → List Nat → Option String → Except String Bool

/-- `Path.read_bytes` against the modelled blob store; `none` when the file
does not exist (`dicom_path.exists()` false). -/
def readFileBytes (s : PACSState) (path : String) : Option (List Nat) :=
  (s.files.find? (fun f => f.1 = path)).map Prod.snd

/-- `UploadProcessor._mark_failed` (upload_processor.py lines 120-129):
permanent iff the new attempt count has reached the cap. -/
def processor_mark_failed (max_retries : Nat) (s : PACSState)
    (sop_instance_uid error : String) (attempt_count : Nat) : PACSState :=
  mark_upload_failed s sop_instance_uid error (attempt_count ≥ max_retries)

/-- `UploadProcessor.upload_instance` (upload_processor.py lines 82-118):
mark started (incrementing the attempt counter) before anything else, then
file read, correlation-id lookup, the external upload call, and the terminal
mark; any failure or exception goes through `_mark_failed` with attempt count
`old + 1`. -/
def upload_instance (mwl : MWLState) (uploader : UploaderFn) (max_retries : Nat)
    (s : PACSState) (inst : UploadItem) : Bool × PACSState :=
  let uid := inst.sop_instance_uid
  let attempt_count := inst.upload_attempt_count
  let s1 := mark_upload_started s uid
  match readFileBytes s1 inst.storage_path with
  | none =>
    (false, processor_mark_failed max_retries s1 uid
      ("DICOM file not found: " ++ inst.storage_path) (attempt_count + 1))
  | some dicom_bytes =>
    let action_id :=
      match inst.accession_number with
      | some acc => if acc = "" then none else get_source_message_id mwl acc
      | none => none
    match uploader uid dicom_bytes action_id with
    | .ok true => (true, mark_upload_complete s1 uid)
    | .ok false =>
      (false, processor_mark_failed max_retries s1 uid
        "Upload returned failure status" (attempt_count + 1))
    | .error msg =>
      (false, processor_mark_failed max_retries s1 uid
        ("Unexpected error: " ++ msg) (attempt_count + 1))

/-- The sequential per-item loop of `UploadProcessor.process_batch`. -/
def uploadFold (mwl : MWLState) (uploader : UploaderFn) (max_retries : Nat) :
    PACSState → List UploadItem → PACSState
  | s, [] => s
  | s, i :: rest =>
    uploadFold mwl uploader max_retries (upload_instance mwl uploader max_retries s i).2 rest

/-- `UploadProcessor.process_batch` (upload_processor.py lines 36-61): fetch
the pending batch once, then upload each item sequentially.  The backoff
bookkeeping (floating-point, engine-local, touching no stored record) is
outside the embedded state. -/
def process_batch (mwl : MWLState) (uploader : UploaderFn) (max_retries limit : Nat)
    (s : PACSState) : Nat × PACSState :=
  let pending := get_pending_uploads s limit max_retries
  (pending.length,
   uploadFold mwl uploader max_retries s (pending.map toUploadItem))

/-- A sequence of polling cycles, each with its own uploader behaviour. -/
def run_batches (mwl : MWLState) (max_retries limit : Nat) :
    List UploaderFn → PACSState → PACSState
  | [], s => s
  | u :: us, s => run_batches mwl max_retries limit us (process_batch mwl u max_retries limit s).2

/-! ## Theorems -/

set_option maxRecDepth 8000 in
/-- Claim C9: the derived storage path is a pure deterministic function of the
instance identifier alone.  The SHA-256 hex digest of the identifier string
(not of the file content) supplies the two directory levels (first 2 and next
2 hex characters) and the 16-character filename stem with the fixed `.dcm`
extension; `store_file` yields the same relative path for the same identifier
regardless of the bytes stored or the prior state; and the spec scenario for
identifier `1.2.3.4.5.6` reproduces the exact fan-out path that the
repository test-suite also pins. -/
theorem c9_storage_path_deterministic :
    (∀ uid : String,
       compute_storage_path uid =
         (Sha256.sha256Hex (strBytes uid)).take 2 ++ "/" ++
           ((Sha256.sha256Hex (strBytes uid)).drop 2).take 2 ++ "/" ++
           (Sha256.sha256Hex (strBytes uid)).take 16 ++ ".dcm") ∧
    (∀ (s s' : PACSState) (uid : String) (d d' : List Nat),
       (store_file s uid d).2.1 = (store_file s' uid d').2.1) ∧
    compute_storage_path "1.2.3.4.5.6" = "ff/af/ffaff041ab509297.dcm" := by
  refine ⟨fun uid => rfl, fun s s' uid d d' => rfl, by decide⟩

/-- Claim C3: a "set" notification whose status attribute is present and equal
to COMPLETED or DISCONTINUED, but whose requested step-instance identifier
matches no stored record, is answered with the unknown-instance rejection
status — which is distinct from the generic processing-failure status — and
the store is left unchanged. -/
theorem c3_nset_unknown_instance (s : MWLState) (req : NSetRequest) (st : String)
    (hst : req.performed_procedure_step_status = some st)
    (hne : st ≠ "")
    (hval : st = MWLStatus.COMPLETED ∨ st = MWLStatus.DISCONTINUED)
    (hnone : ∀ r ∈ s.items, ∀ u, req.requested_sop_instance_uid = some u →
      r.mpps_instance_uid ≠ some u) :
    n_set s req = (UNKNOWN_SOP_INSTANCE, s) ∧
      UNKNOWN_SOP_INSTANCE ≠ PROCESSING_FAILURE := by
  refine ⟨?_, by decide⟩
  have hlook : get_worklist_item_by_mpps_instance_uid s req.requested_sop_instance_uid
      = none := by
    unfold get_worklist_item_by_mpps_instance_uid
    cases hu : req.requested_sop_instance_uid with
    | none => rfl
    | some u =>
      refine List.find?_eq_none.mpr ?_
      intro r hr
      simp only [decide_eq_true_eq]
      exact hnone r hr u hu
  unfold n_set
  rw [hst]
  dsimp only
  rw [if_neg hne, if_neg (not_not_intro hval), hlook]

/-- A concrete one-row worklist store whose only record carries MPPS
identifier `M9`, for the C3 witness. -/
def c3WitnessState : MWLState :=
  ⟨[{ accession_number := "ACC1", modality := "MG",
      patient_birth_date := "19800101", patient_id := "999123456",
      patient_name := "SMITH^JANE", scheduled_date := "20240101",
      scheduled_time := "090000", mpps_instance_uid := some "M9" }]⟩

/-- Witness for C3 at a concrete store and request. -/
theorem c3_nset_unknown_instance_witness :
    n_set c3WitnessState ⟨some "M1", some "COMPLETED"⟩ =
      (UNKNOWN_SOP_INSTANCE, c3WitnessState) ∧
      UNKNOWN_SOP_INSTANCE ≠ PROCESSING_FAILURE := by
  refine c3_nset_unknown_instance _ _ "COMPLETED" rfl (by decide) (Or.inl rfl) ?_
  intro r hr u hu
  simp only [c3WitnessState, List.mem_singleton] at hr
  cases hu
  subst hr
  decide

/-- The one-row worklist item of the repository unit test
`test_build_worklist_response_missing_optional_fields`: all optional fields
absent. -/
def minimalWorklistItem : WorklistItem :=
  { accession_number := "ACC001", patient_id := "9876543210",
    patient_name := "TEST^PATIENT", patient_birth_date := "19800101",
    scheduled_date := "20260107", scheduled_time := "100000", modality := "MG" }

/-- Claim C1 (code evaluated at the failing input): the worklist response
builder never produces a sparse dataset — its mapping-style access to the
`WorklistItem` dataclass raises TypeError at the very first field read, so
for a query matching the minimal record of the handler's own unit test the
C-FIND stream degenerates to a single terminal `(FAILURE, None)` pair instead
of a `(PENDING, sparse dataset)` pair followed by `(SUCCESS, None)`. -/
theorem c1_builder_raises_on_minimal_item :
    build_worklist_response minimalWorklistItem = .error .typeError ∧
    cFindCall (.ok [minimalWorklistItem]) build_worklist_response =
      [((FAILURE : Nat), (none : Option MwlDataset))] := by
  exact ⟨rfl, rfl⟩

/-- Claim C2 (counterexample): from an empty store, a store of instance
`1.2` in which the metadata insert fails after the file write leaves exactly
one file on disk (at the derived path) and no row — the claimed
neither-or-both atomicity does not hold on the code. -/
theorem c2_file_without_row_counterexample :
    (store_instance ⟨[], [], 0⟩ "1.2" [1] ⟨none, none, none⟩ "UNKNOWN" false).1 =
      .error .dbError ∧
    (store_instance ⟨[], [], 0⟩ "1.2" [1] ⟨none, none, none⟩ "UNKNOWN" false).2.files =
      [(compute_storage_path "1.2", [1])] ∧
    (store_instance ⟨[], [], 0⟩ "1.2" [1] ⟨none, none, none⟩ "UNKNOWN" false).2.instances =
      [] := by
  exact ⟨rfl, rfl, rfl⟩

/-- The row that a successful `store_instance` INSERT creates. -/
def mkStoredRow (s : PACSState) (uid : String) (d : List Nat)
    (m : InstanceMetadata) (a : String) : StoredInstance :=
  { sop_instance_uid := uid, storage_path := compute_storage_path uid,
    file_size := d.length, storage_hash := Sha256.sha256Hex d,
    patient_id := m.patient_id, patient_name := m.patient_name,
    accession_number := m.accession_number, source_aet := a,
    status := "STORED", upload_status := "PENDING", upload_error := none,
    upload_attempt_count := 0, last_upload_attempt := none, uploaded_at := none,
    created_at := s.clock }

/-- `store_instance` on an already-present identifier raises
`InstanceExistsError` before touching disk or database. -/
lemma store_instance_of_exists (s : PACSState) (uid : String) (d : List Nat)
    (m : InstanceMetadata) (a : String) (b : Bool)
    (h : instance_exists s uid = true) :
    store_instance s uid d m a b = (.error .instanceExists, s) := by
  unfold store_instance
  rw [h]
  rfl

/-- `store_instance` on a fresh identifier with a succeeding INSERT: file
written, one row appended. -/
lemma store_instance_fresh_insert (s : PACSState) (uid : String) (d : List Nat)
    (m : InstanceMetadata) (a : String) (h : instance_exists s uid = false) :
    store_instance s uid d m a true =
      (.ok (compute_storage_path uid),
       { instances := s.instances ++ [mkStoredRow s uid d m a],
         files := writeFile s.files (compute_storage_path uid) d,
         clock := s.clock + 1 }) := by
  unfold store_instance store_file mkStoredRow
  rw [h]
  rfl

/-- `store_instance` on a fresh identifier with a failing INSERT: the
exception propagates with the file already written and no row created. -/
lemma store_instance_fresh_noinsert (s : PACSState) (uid : String) (d : List Nat)
    (m : InstanceMetadata) (a : String) (h : instance_exists s uid = false) :
    store_instance s uid d m a false =
      (.error .dbError,
       { s with files := writeFile s.files (compute_storage_path uid) d }) := by
  unfold store_instance store_file
  rw [h]
  rfl

/-- Claim C2 (amended): on a fresh identifier a successful store creates
exactly one new row (carrying the identifier, STORED lifecycle status and the
PENDING upload default) and writes the file at the derived path — one new
file when that path was not yet occupied; but when the metadata insert fails
after the file write, the error propagates with the file on disk and the row
list unchanged: the two effects are not atomic. -/
theorem c2_store_instance_effects (s : PACSState) (uid : String) (d : List Nat)
    (m : InstanceMetadata) (a : String)
    (hnew : instance_exists s uid = false) :
    ((store_instance s uid d m a true).1 = .ok (compute_storage_path uid) ∧
     ∃ row : StoredInstance,
       (store_instance s uid d m a true).2.instances = s.instances ++ [row] ∧
       row.sop_instance_uid = uid ∧ row.status = "STORED" ∧
       row.upload_status = "PENDING") ∧
    (store_instance s uid d m a true).2.files =
      writeFile s.files (compute_storage_path uid) d ∧
    ((s.files.any (fun f => f.1 = compute_storage_path uid)) = false →
       (store_instance s uid d m a true).2.files.length = s.files.length + 1) ∧
    (store_instance s uid d m a false).1 = .error .dbError ∧
    (store_instance s uid d m a false).2.instances = s.instances ∧
    (store_instance s uid d m a false).2.files =
      writeFile s.files (compute_storage_path uid) d := by
  rw [store_instance_fresh_insert s uid d m a hnew,
      store_instance_fresh_noinsert s uid d m a hnew]
  refine ⟨⟨rfl, mkStoredRow s uid d m a, rfl, rfl, rfl, rfl⟩, rfl, ?_, rfl, rfl, rfl⟩
  intro hfree
  simp only [writeFile, hfree, Bool.false_eq_true, if_false, List.length_append,
    List.length_singleton]

/-- Witness for C2 (amended) at the concrete input of the counterexample:
both the success effects and the file-without-row failure effect follow from
the theorem with the freshness hypothesis discharged by evaluation. -/
theorem c2_store_instance_effects_witness :
    (store_instance ⟨[], ([] : List (String × List Nat)), 0⟩ "1.2" [1]
        ⟨none, none, none⟩ "UNKNOWN" false).1 = .error .dbError :=
  (c2_store_instance_effects ⟨[], [], 0⟩ "1.2" [1] ⟨none, none, none⟩ "UNKNOWN"
    (by decide)).2.2.2.1

/-- Boolean success test of an `Except` value. -/
def exceptOk {ε α : Type} : Except ε α → Bool
  | .ok _ => true
  | .error _ => false

/-- The payload of an `Except` value, when present. -/
def exceptValue {ε α : Type} : Except ε α → Option α
  | .ok a => some a
  | .error _ => none

lemma cFindEmit_of_all_ok {α : Type} (build : WorklistItem → Except PyErr α) :
    ∀ items : List WorklistItem, (∀ i ∈ items, exceptOk (build i) = true) →
      cFindEmit build items =
        (items.map (fun i => ((PENDING : Nat), exceptValue (build i))), true) := by
  intro items
  induction items with
  | nil => intro _; rfl
  | cons i rest ih =>
    intro h
    have hi := h i (List.mem_cons_self i rest)
    cases hb : build i with
    | error e => rw [hb] at hi; simp [exceptOk] at hi
    | ok ds =>
      simp only [cFindEmit, hb]
      rw [ih (fun j hj => h j (List.mem_cons_of_mem _ hj))]
      simp [hb, exceptValue]

lemma cFindEmit_of_fails {α : Type} (build : WorklistItem → Except PyErr α)
    (bad : WorklistItem) (post : List WorklistItem)
    (hbad : exceptOk (build bad) = false) :
    ∀ pre : List WorklistItem, (∀ i ∈ pre, exceptOk (build i) = true) →
      cFindEmit build (pre ++ bad :: post) =
        (pre.map (fun i => ((PENDING : Nat), exceptValue (build i))), false) := by
  intro pre
  induction pre with
  | nil =>
    intro _
    cases hb : build bad with
    | error e => simp only [List.nil_append, cFindEmit, hb, List.map_nil]
    | ok ds => rw [hb] at hbad; simp [exceptOk] at hbad
  | cons i rest ih =>
    intro h
    have hi := h i (List.mem_cons_self i rest)
    cases hb : build i with
    | error e => rw [hb] at hi; simp [exceptOk] at hi
    | ok ds =>
      simp only [List.cons_append, cFindEmit, hb, List.append_eq]
      rw [ih (fun j hj => h j (List.mem_cons_of_mem _ hj))]
      simp [hb, exceptValue]

/-- Claim C6: the C-FIND handler emits one `(PENDING, dataset)` pair per
matching record, in the order the store returned them, followed by exactly one
terminal `(SUCCESS, None)` pair; when the lookup raises it emits exactly one
terminal `(FAILURE, None)` pair; and when the response builder raises at some
record, the stream is the already-built `(PENDING, dataset)` prefix followed
by exactly one terminal `(FAILURE, None)` pair — no further PENDING pairs
after the point of failure. -/
theorem c6_cfind_stream_shape {α : Type} (build : WorklistItem → Except PyErr α)
    (e : PyErr) (items pre post : List WorklistItem) (bad : WorklistItem) :
    (cFindCall (.error e) build = [((FAILURE : Nat), (none : Option α))]) ∧
    ((∀ i ∈ items, exceptOk (build i) = true) →
       cFindCall (.ok items) build =
         items.map (fun i => ((PENDING : Nat), exceptValue (build i))) ++
           [(SUCCESS, none)]) ∧
    ((∀ i ∈ pre, exceptOk (build i) = true) → exceptOk (build bad) = false →
       cFindCall (.ok (pre ++ bad :: post)) build =
         pre.map (fun i => ((PENDING : Nat), exceptValue (build i))) ++
           [(FAILURE, none)]) := by
  refine ⟨rfl, ?_, ?_⟩
  · intro h
    unfold cFindCall
    dsimp only
    rw [cFindEmit_of_all_ok build items h]
    simp
  · intro h hbad
    unfold cFindCall
    dsimp only
    rw [cFindEmit_of_fails build bad post hbad pre h]
    simp

/-- A concrete worklist record for the C6 witness. -/
def c6GoodItem : WorklistItem :=
  { accession_number := "ACC9", patient_id := "123", patient_name := "A^B",
    patient_birth_date := "19800101", scheduled_date := "20240101",
    scheduled_time := "090000", modality := "MG" }

/-- A second concrete record on which the C6 witness build function fails. -/
def c6BadItem : WorklistItem :=
  { accession_number := "BAD", patient_id := "456", patient_name := "C^D",
    patient_birth_date := "19800101", scheduled_date := "20240101",
    scheduled_time := "090000", modality := "MG" }

/-- The C6 witness build function: fails exactly on accession `BAD`. -/
def c6Build (i : WorklistItem) : Except PyErr Nat :=
  if i.accession_number = "BAD" then .error .typeError else .ok 7

/-- Witness for C6: the clean-run shape and the mid-stream-failure shape at
concrete records and a concrete build function. -/
theorem c6_cfind_stream_shape_witness :
    cFindCall (.ok [c6GoodItem]) c6Build =
      [c6GoodItem].map (fun i => ((PENDING : Nat), exceptValue (c6Build i))) ++
        [(SUCCESS, none)] ∧
    cFindCall (.ok ([c6GoodItem] ++ c6BadItem :: [])) c6Build =
      [c6GoodItem].map (fun i => ((PENDING : Nat), exceptValue (c6Build i))) ++
        [(FAILURE, none)] :=
  ⟨(c6_cfind_stream_shape c6Build .typeError [c6GoodItem] [c6GoodItem] [] c6BadItem).2.1
      (by decide),
   (c6_cfind_stream_shape c6Build .typeError [c6GoodItem] [c6GoodItem] [] c6BadItem).2.2
      (by decide) (by decide)⟩

/-- The file-meta of a little-endian uncompressed mammography-for-presentation
object, shared by the C-STORE test inputs. -/
def fmPresentation : FileMeta :=
  { media_storage_sop_class_uid := MammoForPresentation,
    transfer_syntax_uid := "1.2.840.10008.1.2.1" }

/-- A structurally valid mammography dataset carrying pixel data (the shape of
the repository `dataset_with_pixels` fixture). -/
def pixelDataset : DicomDataset :=
  { sop_instance_uid := some "1.2.3.4.5.6", patient_id := some "9990001112",
    patient_name := some "JANE^SMITH", accession_number := some "ABC123",
    study_instance_uid := some "1.2.3.4.5.6.7",
    sop_class_uid := some MammoForPresentation,
    pixel_data := some [0, 0, 0, 0], rows := some 2, columns := some 2,
    bits_allocated := some 16, file_meta := fmPresentation }

/-- The C-STORE event delivering `pixelDataset`. -/
def pixelEvent : CStoreEvent :=
  { dataset := pixelDataset, file_meta := fmPresentation,
    requestor_ae_title := "ae-title" }

/-- Claim C4 (code evaluated at the failing input): `pixelDataset` passes both
structural validation gates, yet the compression transform raises (the
undefined module-level name) instead of returning a best-effort dataset, so
the store handler answers FAILURE — for every serializer, every prior state
and either insert outcome — with the state untouched.  The transform step
therefore can and does reject validated requests. -/
theorem c4_transform_rejects_validated_pixel_request :
    validate_dataset pixelDataset = .ok () ∧
    validate_pixel_data pixelDataset = .ok () ∧
    compress pixelDataset = .error .nameError ∧
    ∀ (serialize : DicomDataset → List Nat) (s : PACSState) (insertOk : Bool),
      c_store_call serialize s pixelEvent insertOk = ((FAILURE : Nat), s) := by
  refine ⟨rfl, rfl, rfl, fun serialize s insertOk => ?_⟩
  have hp : c_store_prepare serialize pixelEvent = none := rfl
  unfold c_store_call
  rw [hp]

/-- Appending a STORED row bearing the identifier makes `instance_exists`
true. -/
lemma instance_exists_append (l : List StoredInstance)
    (files : List (String × List Nat)) (clock : Nat) (row : StoredInstance)
    (uid : String) (h1 : row.sop_instance_uid = uid) (h2 : row.status = "STORED") :
    instance_exists ⟨l ++ [row], files, clock⟩ uid = true := by
  simp [instance_exists, List.any_append, h1, h2]

/-- Claim C5: re-delivering a store request after any store of it succeeded is
idempotent — the second `CStore.call` returns the protocol SUCCESS status and
leaves the state exactly as the first call left it: no second row is
inserted and no second file write occurs. -/
theorem c5_second_store_idempotent (serialize : DicomDataset → List Nat)
    (s s1 : PACSState) (event : CStoreEvent) (b b' : Bool)
    (h : c_store_call serialize s event b = (SUCCESS, s1)) :
    c_store_call serialize s1 event b' = (SUCCESS, s1) := by
  unfold c_store_call at h ⊢
  cases hp : c_store_prepare serialize event with
  | none =>
    rw [hp] at h
    dsimp only at h
    have hfs : FAILURE = SUCCESS := congrArg Prod.fst h
    exact absurd hfs (by decide)
  | some p =>
    rw [hp] at h
    dsimp only at h
    dsimp only
    by_cases hex : instance_exists s p.sop_instance_uid = true
    · rw [store_instance_of_exists s p.sop_instance_uid p.dicom_bytes p.metadata
          p.source_aet b hex] at h
      dsimp only at h
      have hs : s = s1 := congrArg Prod.snd h
      subst hs
      rw [store_instance_of_exists s p.sop_instance_uid p.dicom_bytes p.metadata
          p.source_aet b' hex]
    · rw [Bool.not_eq_true] at hex
      cases b with
      | false =>
        rw [store_instance_fresh_noinsert s p.sop_instance_uid p.dicom_bytes
            p.metadata p.source_aet hex] at h
        dsimp only at h
        have hfs : FAILURE = SUCCESS := congrArg Prod.fst h
        exact absurd hfs (by decide)
      | true =>
        rw [store_instance_fresh_insert s p.sop_instance_uid p.dicom_bytes
            p.metadata p.source_aet hex] at h
        dsimp only at h
        have hs := congrArg Prod.snd h
        dsimp only at hs
        rw [← hs]
        have hex2 : instance_exists
            ⟨s.instances ++ [mkStoredRow s p.sop_instance_uid p.dicom_bytes
                p.metadata p.source_aet],
             writeFile s.files (compute_storage_path p.sop_instance_uid) p.dicom_bytes,
             s.clock + 1⟩ p.sop_instance_uid = true :=
          instance_exists_append _ _ _ _ _ rfl rfl
        rw [store_instance_of_exists _ p.sop_instance_uid p.dicom_bytes p.metadata
            p.source_aet b' hex2]

/-- The empty PACS state. -/
def emptyPACS : PACSState := ⟨[], [], 0⟩

/-- A serialized object with the 128-byte preamble and `DICM` marker, as
`dcmwrite(enforce_file_format=True)` produces. -/
def dicmOkBytes : List Nat := List.replicate 128 0 ++ dicmMarker

/-- A concrete stand-in for the external serializer in the C5 witness. -/
def c5Serialize : DicomDataset → List Nat := fun _ => dicmOkBytes

/-- A pixel-free valid store event for the C5 witness (its transform step
succeeds, so the full pipeline runs). -/
def c5Event : CStoreEvent :=
  { dataset :=
      { sop_instance_uid := some "1.2.3.4.5.6", patient_id := some "9990001112",
        patient_name := some "JANE^SMITH", accession_number := some "ABC123",
        study_instance_uid := some "1.2.3.4.5.6.7",
        sop_class_uid := some MammoForPresentation, file_meta := fmPresentation },
    file_meta := fmPresentation, requestor_ae_title := "ae-title" }

set_option maxRecDepth 8000 in
/-- Witness for C5: a concrete first store succeeds from the empty state, and
the theorem then gives the idempotent second call. -/
theorem c5_second_store_idempotent_witness :
    c_store_call c5Serialize (c_store_call c5Serialize emptyPACS c5Event true).2
        c5Event false =
      (SUCCESS, (c_store_call c5Serialize emptyPACS c5Event true).2) :=
  c5_second_store_idempotent c5Serialize emptyPACS
    (c_store_call c5Serialize emptyPACS c5Event true).2 c5Event true false
    (by decide)

/-- A terminal procedure-step status: COMPLETED or DISCONTINUED. -/
def isTerminal (st : String) : Prop :=
  st = MWLStatus.COMPLETED ∨ st = MWLStatus.DISCONTINUED

/-- A worklist store holding one SCHEDULED record with a source message id,
the starting point of the C7 run. -/
def c7State0 : MWLState :=
  ⟨[{ accession_number := "ACC1", modality := "MG",
      patient_birth_date := "19800101", patient_id := "999123456",
      patient_name := "SMITH^JANE", scheduled_date := "20240101",
      scheduled_time := "090000", source_message_id := some "MSG1" }]⟩

/-- The first start notification: step-instance `M1` for accession `ACC1`. -/
def c7Create1 : NCreateRequest := ⟨some "M1", some "IN PROGRESS", [⟨some "ACC1"⟩]⟩

/-- The terminal update notification for step-instance `M1`. -/
def c7SetComplete : NSetRequest := ⟨some "M1", some "COMPLETED"⟩

/-- A second start notification with a fresh step-instance `M2` for the same
accession `ACC1`. -/
def c7Create2 : NCreateRequest := ⟨some "M2", some "IN PROGRESS", [⟨some "ACC1"⟩]⟩

/-- Claim C7 (counterexample): the reachable operation run
create(M1, ACC1) — set(M1, COMPLETED) — create(M2, ACC1), every step accepted
with SUCCESS, moves the record from the terminal COMPLETED status back to
IN PROGRESS: terminal states are not absorbing under "create" notifications
bearing a fresh step-instance identifier. -/
theorem c7_terminal_reentered_counterexample :
    (n_create c7State0 c7Create1).1 = SUCCESS ∧
    (n_set (n_create c7State0 c7Create1).2 c7SetComplete).1 = SUCCESS ∧
    ((n_set (n_create c7State0 c7Create1).2 c7SetComplete).2.items.map
        WorklistItem.status) = ["COMPLETED"] ∧
    (n_create (n_set (n_create c7State0 c7Create1).2 c7SetComplete).2 c7Create2).1 =
      SUCCESS ∧
    ((n_create (n_set (n_create c7State0 c7Create1).2 c7SetComplete).2
        c7Create2).2.items.map WorklistItem.status) = ["IN PROGRESS"] := by
  decide

lemma forall₂_map_of_forall {β : Type} (P : β → β → Prop) (f : β → β) :
    ∀ l : List β, (∀ x ∈ l, P x (f x)) → List.Forall₂ P l (l.map f)
  | [], _ => List.Forall₂.nil
  | x :: xs, h =>
    List.Forall₂.cons (h x (List.mem_cons_self x xs))
      (forall₂_map_of_forall P f xs (fun y hy => h y (List.mem_cons_of_mem _ hy)))

lemma forall₂_refl_of {β : Type} (P : β → β → Prop) :
    ∀ l : List β, (∀ x ∈ l, P x x) → List.Forall₂ P l l
  | [], _ => List.Forall₂.nil
  | x :: xs, h =>
    List.Forall₂.cons (h x (List.mem_cons_self x xs))
      (forall₂_refl_of P xs (fun y hy => h y (List.mem_cons_of_mem _ hy)))

/-- The state left by `update_status` is always the row-wise image of
`applyStatus` (also when no row matched, where that image is the identity). -/
lemma update_status_state (s : MWLState) (acc st : String) (m : Option String) :
    (update_status s acc st m).2.items = s.items.map (applyStatus acc st m) := by
  unfold update_status
  dsimp only
  by_cases hz : (s.items.filter (fun r => r.accession_number = acc)).length = 0
  · rw [if_pos hz]
    have hnil := List.length_eq_zero.mp hz
    have hall : ∀ r ∈ s.items, r = applyStatus acc st m r := by
      intro r hr
      have hne : ¬(r.accession_number = acc) := by
        intro he
        have hmem : r ∈ s.items.filter (fun r => r.accession_number = acc) :=
          List.mem_filter.mpr ⟨hr, by simp [he]⟩
        rw [hnil] at hmem
        exact absurd hmem (List.not_mem_nil r)
      simp [applyStatus, hne]
    calc s.items = s.items.map id := (List.map_id _).symm
    _ = s.items.map (applyStatus acc st m) := List.map_congr_left (fun a ha => hall a ha)
  · rw [if_neg hz]
    split <;> rfl

lemma applyStatus_preserves_terminal (acc st : String) (m : Option String)
    (hst : isTerminal st) (r : WorklistItem) (h : isTerminal r.status) :
    isTerminal (applyStatus acc st m r).status := by
  unfold applyStatus
  split
  · exact hst
  · exact h

lemma applyStatus_of_ne (acc st : String) (m : Option String) (r : WorklistItem)
    (h : ¬(r.accession_number = acc)) : applyStatus acc st m r = r := by
  unfold applyStatus
  rw [if_neg h]

/-- Every path through the N-SET handler leaves the store unchanged or applies
`applyStatus` with a terminal status to every row. -/
lemma nset_state_shape (s : MWLState) (req : NSetRequest) :
    (n_set s req).2 = s ∨
    ∃ acc st, isTerminal st ∧
      (n_set s req).2.items = s.items.map (applyStatus acc st none) := by
  unfold n_set
  cases hst : req.performed_procedure_step_status with
  | none => exact Or.inl rfl
  | some st =>
    dsimp only
    by_cases h1 : st = ""
    · rw [if_pos h1]; exact Or.inl rfl
    · rw [if_neg h1]
      by_cases h2 : ¬(st = MWLStatus.COMPLETED ∨ st = MWLStatus.DISCONTINUED)
      · rw [if_pos h2]; exact Or.inl rfl
      · rw [if_neg h2]
        cases hl : get_worklist_item_by_mpps_instance_uid s
            req.requested_sop_instance_uid with
        | none => exact Or.inl rfl
        | some item =>
          dsimp only
          refine Or.inr ⟨item.accession_number, st, not_not.mp h2, ?_⟩
          have hu := update_status_state s item.accession_number st none
          split
          · exact hu
          · split
            · exact hu
            · exact hu

/-- Every path through the N-CREATE handler leaves the store unchanged or —
when the step-instance identifier is fresh and a first scheduled-step
accession is present — applies `applyStatus` with IN PROGRESS to every row. -/
lemma ncreate_state_shape (s : MWLState) (req : NCreateRequest) :
    (n_create s req).2 = s ∨
    ∃ uid sps rest acc,
      req.affected_sop_instance_uid = some uid ∧
      mpps_instance_exists s uid = false ∧
      req.scheduled_step_attributes_sequence = sps :: rest ∧
      sps.accession_number = some acc ∧
      (n_create s req).2.items =
        s.items.map (applyStatus acc MWLStatus.IN_PROGRESS (some uid)) := by
  unfold n_create
  cases ha : req.affected_sop_instance_uid with
  | none => exact Or.inl rfl
  | some uid =>
    dsimp only
    by_cases hm : mpps_instance_exists s uid = true
    · rw [if_pos hm]; exact Or.inl rfl
    · rw [Bool.not_eq_true] at hm
      rw [if_neg (by rw [hm]; exact Bool.false_ne_true)]
      cases hstt : req.performed_procedure_step_status with
      | none => exact Or.inl rfl
      | some st =>
        dsimp only
        by_cases h1 : st = ""
        · rw [if_pos h1]; exact Or.inl rfl
        · rw [if_neg h1]
          by_cases h2 : pyUpper st ≠ MWLStatus.IN_PROGRESS
          · rw [if_pos h2]; exact Or.inl rfl
          · rw [if_neg h2]
            cases hseq : req.scheduled_step_attributes_sequence with
            | nil => exact Or.inl rfl
            | cons sps rest =>
              dsimp only
              cases hacc : sps.accession_number with
              | none => exact Or.inl rfl
              | some acc =>
                dsimp only
                by_cases h3 : acc = ""
                · rw [if_pos h3]; exact Or.inl rfl
                · rw [if_neg h3]
                  exact Or.inr ⟨uid, sps, rest, acc, rfl, hm, rfl, hacc,
                    update_status_state s acc MWLStatus.IN_PROGRESS (some uid)⟩

/-- Claim C7 (amended): terminal statuses are absorbing under every "set"
notification and under every "create" notification whose step-instance
identifier is already registered (or absent); and a "create" can only move a
terminal record out of a terminal status when its first scheduled-step entry
names that record's accession number — the case the counterexample exhibits. -/
theorem c7_terminal_absorbing_amended (s : MWLState) (reqS : NSetRequest)
    (reqC : NCreateRequest) :
    List.Forall₂ (fun o n => isTerminal o.status → isTerminal n.status)
      s.items (n_set s reqS).2.items ∧
    ((∀ u, reqC.affected_sop_instance_uid = some u →
        mpps_instance_exists s u = true) →
      List.Forall₂ (fun o n => isTerminal o.status → isTerminal n.status)
        s.items (n_create s reqC).2.items) ∧
    List.Forall₂ (fun o n =>
        isTerminal o.status →
        (∀ sps ∈ reqC.scheduled_step_attributes_sequence.take 1,
           sps.accession_number ≠ some o.accession_number) →
        isTerminal n.status)
      s.items (n_create s reqC).2.items := by
  refine ⟨?_, ?_, ?_⟩
  · rcases nset_state_shape s reqS with h | ⟨acc, st, hterm, hmap⟩
    · rw [h]; exact forall₂_refl_of _ _ (fun x _ hx => hx)
    · rw [hmap]
      exact forall₂_map_of_forall _ _ _
        (fun x _ => applyStatus_preserves_terminal acc st none hterm x)
  · intro hreg
    rcases ncreate_state_shape s reqC with h | ⟨uid, sps, rest, acc, haff, hfresh, _, _, _⟩
    · rw [h]; exact forall₂_refl_of _ _ (fun x _ hx => hx)
    · rw [hreg uid haff] at hfresh
      exact absurd hfresh (by decide)
  · rcases ncreate_state_shape s reqC with h | ⟨uid, sps, rest, acc, haff, hfresh, hseq, hacc, hmap⟩
    · rw [h]; exact forall₂_refl_of _ _ (fun x _ hx _ => hx)
    · rw [hmap]
      refine forall₂_map_of_forall _ _ _ ?_
      intro x _ hx hne
      have hmem : sps ∈ reqC.scheduled_step_attributes_sequence.take 1 := by
        rw [hseq]; simp
      have hne2 := hne sps hmem
      rw [hacc] at hne2
      have hxa : ¬(x.accession_number = acc) := fun he => hne2 (by rw [he])
      rw [applyStatus_of_ne _ _ _ _ hxa]
      exact hx

/-- Witness for C7 (amended): a "create" whose step-instance identifier is
already registered in the concrete one-record store preserves terminality
row-wise. -/
theorem c7_terminal_absorbing_amended_witness :
    List.Forall₂ (fun o n => isTerminal o.status → isTerminal n.status)
      c3WitnessState.items
      (n_create c3WitnessState ⟨some "M9", some "IN PROGRESS", [⟨some "ACC1"⟩]⟩).2.items :=
  (c7_terminal_absorbing_amended c3WitnessState ⟨some "M1", some "COMPLETED"⟩
      ⟨some "M9", some "IN PROGRESS", [⟨some "ACC1"⟩]⟩).2.1
    (by intro u hu; injection hu with h; subst h; decide)

/-- Decomposition of a row of the per-item failure path
(`mark_upload_started` then `mark_upload_failed`): a row bearing the marked
identifier is the original row with status FAILED-or-PENDING, the truncated
error text, the attempt timestamp, and the attempt counter incremented; every
other row is untouched. -/
lemma failpath_mem (s : PACSState) (uid e : String) (perm : Bool)
    (x : StoredInstance)
    (hx : x ∈ (mark_upload_failed (mark_upload_started s uid) uid e perm).instances) :
    (∃ r, r ∈ s.instances ∧ r.sop_instance_uid = uid ∧
       x = { r with
               upload_status := if perm then "FAILED" else "PENDING"
               upload_error := some (truncate500 e)
               last_upload_attempt := some s.clock
               upload_attempt_count := r.upload_attempt_count + 1 }) ∨
    (x ∈ s.instances ∧ x.sop_instance_uid ≠ uid) := by
  unfold mark_upload_failed mark_upload_started at hx
  dsimp only at hx
  obtain ⟨y, hy, hxy⟩ := List.mem_map.mp hx
  obtain ⟨r, hr, hyr⟩ := List.mem_map.mp hy
  subst hxy
  subst hyr
  by_cases hru : r.sop_instance_uid = uid
  · left
    refine ⟨r, hr, hru, ?_⟩
    unfold startedRow
    rw [if_pos hru]
    unfold failedRow
    dsimp only
    rw [if_pos hru]
  · right
    unfold startedRow
    rw [if_neg hru]
    unfold failedRow
    rw [if_neg hru]
    exact ⟨hr, hru⟩

/-- Membership in a pending-upload batch implies membership in the table and
the three selection predicates. -/
lemma mem_pending_spec (s : PACSState) (limit maxR : Nat) (x : StoredInstance)
    (hx : x ∈ get_pending_uploads s limit maxR) :
    x ∈ s.instances ∧ x.upload_status = "PENDING" ∧ x.status = "STORED" ∧
      x.upload_attempt_count < maxR := by
  unfold get_pending_uploads at hx
  have hx' := List.take_subset _ _ hx
  have hm := List.mem_filter.mp hx'
  have hp := hm.2
  simp only [pendingPred, decide_eq_true_eq] at hp
  exact ⟨hm.1, hp⟩

/-- The conclusions of claim C8 for one failure-marking invocation with error
text `e` and previous attempt count `n`. -/
lemma mark_failed_semantics_core (s : PACSState) (uid e : String) (n maxR : Nat)
    (hcount : ∀ x ∈ s.instances, x.sop_instance_uid = uid →
       x.upload_attempt_count = n) :
    (∀ x ∈ (processor_mark_failed maxR (mark_upload_started s uid) uid e (n + 1)).instances,
       x.sop_instance_uid = uid →
       (∃ t, x.upload_error = some t ∧ t.length ≤ 500) ∧
       x.upload_attempt_count = n + 1 ∧
       x.upload_status = (if n + 1 ≥ maxR then "FAILED" else "PENDING")) ∧
    (n + 1 ≥ maxR →
       ∀ limit x,
         x ∈ get_pending_uploads
               (processor_mark_failed maxR (mark_upload_started s uid) uid e (n + 1))
               limit maxR →
         x.sop_instance_uid ≠ uid) ∧
    (n + 1 < maxR →
       ∀ x ∈ (processor_mark_failed maxR (mark_upload_started s uid) uid e (n + 1)).instances,
         x.sop_instance_uid = uid → x.status = "STORED" →
         pendingPred maxR x = true) := by
  have key : ∀ x ∈ (processor_mark_failed maxR (mark_upload_started s uid) uid e (n + 1)).instances,
      x.sop_instance_uid = uid →
      x.upload_error = some (truncate500 e) ∧
      x.upload_attempt_count = n + 1 ∧
      x.upload_status = (if n + 1 ≥ maxR then "FAILED" else "PENDING") := by
    intro x hx hxu
    rcases failpath_mem s uid e _ x hx with ⟨r, hr, hru, hxe⟩ | ⟨_, hne⟩
    · subst hxe
      refine ⟨rfl, by rw [hcount r hr hru], ?_⟩
      show (if decide (n + 1 ≥ maxR) = true then "FAILED" else "PENDING") =
        (if n + 1 ≥ maxR then "FAILED" else "PENDING")
      by_cases hge : n + 1 ≥ maxR
      · rw [if_pos hge, if_pos (by rw [decide_eq_true_eq]; exact hge)]
      · rw [if_neg hge, if_neg (by rw [decide_eq_true_eq]; exact hge)]
    · exact absurd hxu hne
  refine ⟨?_, ?_, ?_⟩
  · intro x hx hxu
    obtain ⟨herr, hcnt, hst⟩ := key x hx hxu
    refine ⟨⟨truncate500 e, herr, ?_⟩, hcnt, hst⟩
    show (e.data.take 500).length ≤ 500
    rw [List.length_take]
    exact Nat.min_le_left _ _
  · intro hge limit x hx hxu
    obtain ⟨hmem, hpend, _, _⟩ := mem_pending_spec _ limit maxR x hx
    obtain ⟨_, _, hst⟩ := key x hmem hxu
    rw [if_pos hge] at hst
    rw [hst] at hpend
    exact absurd hpend (by decide)
  · intro hlt x hx hxu hstored
    obtain ⟨_, hcnt, hst⟩ := key x hx hxu
    rw [if_neg (Nat.not_le.mpr hlt)] at hst
    simp only [pendingPred, decide_eq_true_eq]
    exact ⟨hst, hstored, by rw [hcnt]; exact hlt⟩

/-- `upload_instance` either fails through the single `_mark_failed` path
(some error text, after `mark_upload_started`) or succeeds through
`mark_upload_complete`. -/
lemma upload_instance_shape (mwl : MWLState) (uploader : UploaderFn)
    (max_retries : Nat) (s : PACSState) (inst : UploadItem) :
    (∃ e, upload_instance mwl uploader max_retries s inst =
       (false, processor_mark_failed max_retries
          (mark_upload_started s inst.sop_instance_uid)
          inst.sop_instance_uid e (inst.upload_attempt_count + 1))) ∨
    upload_instance mwl uploader max_retries s inst =
      (true, mark_upload_complete (mark_upload_started s inst.sop_instance_uid)
         inst.sop_instance_uid) := by
  unfold upload_instance
  dsimp only
  split
  · exact Or.inl ⟨_, rfl⟩
  · split
    · exact Or.inr rfl
    · exact Or.inl ⟨_, rfl⟩
    · exact Or.inl ⟨_, rfl⟩

/-- Claim C8: whenever `upload_instance` reports failure, every stored row
bearing the item identifier has been marked failed — error text truncated to
at most 500 characters, attempt counter now `old + 1`, and upload status
FAILED exactly when the new attempt count has reached the retry cap, PENDING
otherwise.  A permanently failed row is never returned by subsequent
`get_pending_uploads` calls; a non-permanently failed STORED row again
satisfies the polling predicate. -/
theorem c8_upload_failure_marking (mwl : MWLState) (uploader : UploaderFn)
    (max_retries : Nat) (s s' : PACSState) (inst : UploadItem)
    (hcount : ∀ x ∈ s.instances, x.sop_instance_uid = inst.sop_instance_uid →
       x.upload_attempt_count = inst.upload_attempt_count)
    (hfail : (upload_instance mwl uploader max_retries s inst).1 = false)
    (hs' : (upload_instance mwl uploader max_retries s inst).2 = s') :
    (∀ x ∈ s'.instances, x.sop_instance_uid = inst.sop_instance_uid →
       (∃ t, x.upload_error = some t ∧ t.length ≤ 500) ∧
       x.upload_attempt_count = inst.upload_attempt_count + 1 ∧
       x.upload_status =
         (if inst.upload_attempt_count + 1 ≥ max_retries then "FAILED" else "PENDING")) ∧
    (inst.upload_attempt_count + 1 ≥ max_retries →
       ∀ limit x, x ∈ get_pending_uploads s' limit max_retries →
         x.sop_instance_uid ≠ inst.sop_instance_uid) ∧
    (inst.upload_attempt_count + 1 < max_retries →
       ∀ x ∈ s'.instances, x.sop_instance_uid = inst.sop_instance_uid →
         x.status = "STORED" → pendingPred max_retries x = true) := by
  rcases upload_instance_shape mwl uploader max_retries s inst with ⟨e, heq⟩ | heq
  · rw [heq] at hs'
    dsimp only at hs'
    rw [← hs']
    exact mark_failed_semantics_core s inst.sop_instance_uid e _ max_retries hcount
  · rw [heq] at hfail
    have hb : true = false := hfail
    exact absurd hb (by decide)

/-- A PENDING, STORED row with no prior attempts, for the C8 witness. -/
def c8Record : StoredInstance :=
  { sop_instance_uid := "U1", storage_path := "p", file_size := 1,
    storage_hash := "h", patient_id := none, patient_name := none,
    accession_number := none, source_aet := "A", status := "STORED",
    upload_status := "PENDING", upload_error := none, upload_attempt_count := 0,
    last_upload_attempt := none, uploaded_at := none, created_at := 0 }

/-- A one-row PACS state whose blob store is empty (the file is missing), for
the C8 witness. -/
def c8State : PACSState := ⟨[c8Record], [], 0⟩

/-- An uploader double that rejects everything, for the C8 witness. -/
def c8Uploader : UploaderFn := fun _ _ _ => .ok false

/-- The state after the witness upload attempt fails. -/
def c8After : PACSState :=
  (upload_instance ⟨[]⟩ c8Uploader 1 c8State (toUploadItem c8Record)).2

/-- The failed row the witness attempt leaves behind. -/
def c8FailedRecord : StoredInstance :=
  { c8Record with
      upload_status := "FAILED"
      upload_error := some (truncate500 ("DICOM file not found: " ++ "p"))
      last_upload_attempt := some 0
      upload_attempt_count := 1 }

/-- Witness for C8: with retry cap 1 and the stored file missing, the single
attempt marks the row failed with attempt count 1 and upload status FAILED
(permanent, since the new attempt count reached the cap). -/
theorem c8_upload_failure_marking_witness :
    c8FailedRecord.upload_attempt_count =
        (toUploadItem c8Record).upload_attempt_count + 1 ∧
      c8FailedRecord.upload_status =
        (if (toUploadItem c8Record).upload_attempt_count + 1 ≥ 1 then "FAILED"
         else "PENDING") :=
  ((c8_upload_failure_marking ⟨[]⟩ c8Uploader 1 c8State c8After
      (toUploadItem c8Record) (by decide) (by decide) rfl).1
    c8FailedRecord (by decide) (by decide)).2

/-- `r` is in the table and is the only row bearing its identifier. -/
def solo (r : StoredInstance) (l : List StoredInstance) : Prop :=
  r ∈ l ∧ ∀ x ∈ l, x.sop_instance_uid = r.sop_instance_uid → x = r

/-- A row-wise map that fixes every row bearing `r`'s identifier and never
changes identifiers preserves `solo`. -/
lemma keyed_map_solo (f : StoredInstance → StoredInstance) (r : StoredInstance)
    (hfix : ∀ x, x.sop_instance_uid = r.sop_instance_uid → f x = x)
    (huid : ∀ x, (f x).sop_instance_uid = x.sop_instance_uid)
    {l : List StoredInstance} (h : solo r l) : solo r (l.map f) := by
  obtain ⟨hmem, huniq⟩ := h
  constructor
  · have hfm := List.mem_map_of_mem f hmem
    rw [hfix r rfl] at hfm
    exact hfm
  · intro x hx hxu
    obtain ⟨y, hy, hxy⟩ := List.mem_map.mp hx
    subst hxy
    have hyu : y.sop_instance_uid = r.sop_instance_uid := by
      rw [← huid y]; exact hxu
    rw [huniq y hy hyu]
    exact hfix r rfl

lemma startedRow_fix (clock : Nat) (uid : String) (r : StoredInstance)
    (hne : uid ≠ r.sop_instance_uid) :
    ∀ x, x.sop_instance_uid = r.sop_instance_uid → startedRow clock uid x = x := by
  intro x hx
  unfold startedRow
  rw [if_neg (fun hq => hne (hq.symm.trans hx))]

lemma startedRow_uid (clock : Nat) (uid : String) (x : StoredInstance) :
    (startedRow clock uid x).sop_instance_uid = x.sop_instance_uid := by
  unfold startedRow
  split <;> rfl

lemma completeRow_fix (clock : Nat) (uid : String) (r : StoredInstance)
    (hne : uid ≠ r.sop_instance_uid) :
    ∀ x, x.sop_instance_uid = r.sop_instance_uid → completeRow clock uid x = x := by
  intro x hx
  unfold completeRow
  rw [if_neg (fun hq => hne (hq.symm.trans hx))]

lemma completeRow_uid (clock : Nat) (uid : String) (x : StoredInstance) :
    (completeRow clock uid x).sop_instance_uid = x.sop_instance_uid := by
  unfold completeRow
  split <;> rfl

lemma failedRow_fix (uid e : String) (perm : Bool) (r : StoredInstance)
    (hne : uid ≠ r.sop_instance_uid) :
    ∀ x, x.sop_instance_uid = r.sop_instance_uid → failedRow uid e perm x = x := by
  intro x hx
  unfold failedRow
  rw [if_neg (fun hq => hne (hq.symm.trans hx))]

lemma failedRow_uid (uid e : String) (perm : Bool) (x : StoredInstance) :
    (failedRow uid e perm x).sop_instance_uid = x.sop_instance_uid := by
  unfold failedRow
  split <;> rfl

lemma mark_started_solo (s : PACSState) (uid : String) (r : StoredInstance)
    (hne : uid ≠ r.sop_instance_uid) (h : solo r s.instances) :
    solo r (mark_upload_started s uid).instances := by
  unfold mark_upload_started
  exact keyed_map_solo _ r (startedRow_fix s.clock uid r hne)
    (startedRow_uid s.clock uid) h

/-- One `upload_instance` call for an item with a different identifier leaves
`r` in place as the unique bearer of its identifier. -/
lemma upload_instance_solo (mwl : MWLState) (uploader : UploaderFn)
    (maxR : Nat) (s : PACSState) (inst : UploadItem) (r : StoredInstance)
    (hne : inst.sop_instance_uid ≠ r.sop_instance_uid)
    (h : solo r s.instances) :
    solo r (upload_instance mwl uploader maxR s inst).2.instances := by
  rcases upload_instance_shape mwl uploader maxR s inst with ⟨e, heq⟩ | heq <;> rw [heq]
  · unfold processor_mark_failed mark_upload_failed
    exact keyed_map_solo _ r (failedRow_fix inst.sop_instance_uid e _ r hne)
      (failedRow_uid inst.sop_instance_uid e _)
      (mark_started_solo s inst.sop_instance_uid r hne h)
  · unfold mark_upload_complete
    exact keyed_map_solo _ r
      (completeRow_fix (mark_upload_started s inst.sop_instance_uid).clock
        inst.sop_instance_uid r hne)
      (completeRow_uid _ inst.sop_instance_uid)
      (mark_started_solo s inst.sop_instance_uid r hne h)

lemma uploadFold_solo (mwl : MWLState) (uploader : UploaderFn) (maxR : Nat)
    (r : StoredInstance) :
    ∀ (items : List UploadItem) (s : PACSState),
      (∀ i ∈ items, i.sop_instance_uid ≠ r.sop_instance_uid) →
      solo r s.instances →
      solo r (uploadFold mwl uploader maxR s items).instances
  | [], _, _, h => h
  | i :: rest, s, hni, h =>
    uploadFold_solo mwl uploader maxR r rest _
      (fun j hj => hni j (List.mem_cons_of_mem _ hj))
      (upload_instance_solo mwl uploader maxR s i r
        (hni i (List.mem_cons_self i rest)) h)

/-- One polling cycle never touches a row stuck in UPLOADING: the batch it
fetches holds only PENDING rows, none of which can bear `r`'s identifier. -/
lemma process_batch_solo (mwl : MWLState) (uploader : UploaderFn)
    (maxR limit : Nat) (s : PACSState) (r : StoredInstance)
    (hupl : r.upload_status = "UPLOADING") (h : solo r s.instances) :
    solo r (process_batch mwl uploader maxR limit s).2.instances := by
  unfold process_batch
  dsimp only
  refine uploadFold_solo mwl uploader maxR r _ s ?_ h
  intro i hi
  obtain ⟨x, hx, hix⟩ := List.mem_map.mp hi
  subst hix
  show x.sop_instance_uid ≠ r.sop_instance_uid
  intro heq
  obtain ⟨hmem, hpend, _, _⟩ := mem_pending_spec s limit maxR x hx
  have hxr := h.2 x hmem heq
  rw [hxr, hupl] at hpend
  exact absurd hpend (by decide)

lemma run_batches_solo (mwl : MWLState) (maxR limit : Nat)
    (r : StoredInstance) (hupl : r.upload_status = "UPLOADING") :
    ∀ (us : List UploaderFn) (s : PACSState), solo r s.instances →
      solo r (run_batches mwl maxR limit us s).instances
  | [], _, h => h
  | u :: us, s, h =>
    run_batches_solo mwl maxR limit r hupl us _
      (process_batch_solo mwl u maxR limit s r hupl h)

/-- Claim C10: every row returned by `get_pending_uploads` has upload status
PENDING, lifecycle status STORED and attempt count below the cap; hence a row
stuck in UPLOADING (the sole bearer of its identifier) is never selected, and
across any sequence of polling cycles it persists unchanged — in particular
it is never marked FAILED. -/
theorem c10_uploading_row_never_selected (s : PACSState) (r : StoredInstance)
    (hmem : r ∈ s.instances)
    (huniq : ∀ x ∈ s.instances, x.sop_instance_uid = r.sop_instance_uid → x = r)
    (hupl : r.upload_status = "UPLOADING") :
    (∀ (s₀ : PACSState) (limit maxR : Nat), ∀ x ∈ get_pending_uploads s₀ limit maxR,
       x.upload_status = "PENDING" ∧ x.status = "STORED" ∧
         x.upload_attempt_count < maxR) ∧
    (∀ (limit maxR : Nat), ∀ x ∈ get_pending_uploads s limit maxR,
       x.sop_instance_uid ≠ r.sop_instance_uid) ∧
    (∀ (mwl : MWLState) (maxR limit : Nat) (us : List UploaderFn),
       r ∈ (run_batches mwl maxR limit us s).instances ∧
       (∀ x ∈ (run_batches mwl maxR limit us s).instances,
          x.sop_instance_uid = r.sop_instance_uid →
            x.upload_status = "UPLOADING" ∧ x.upload_status ≠ "FAILED")) := by
  refine ⟨?_, ?_, ?_⟩
  · intro s₀ limit maxR x hx
    exact (mem_pending_spec s₀ limit maxR x hx).2
  · intro limit maxR x hx heq
    obtain ⟨hmem', hpend, _, _⟩ := mem_pending_spec s limit maxR x hx
    have hxr := huniq x hmem' heq
    rw [hxr, hupl] at hpend
    exact absurd hpend (by decide)
  · intro mwl maxR limit us
    have hsolo := run_batches_solo mwl maxR limit r hupl us s ⟨hmem, huniq⟩
    refine ⟨hsolo.1, ?_⟩
    intro x hx heq
    rw [hsolo.2 x hx heq, hupl]
    exact ⟨rfl, by decide⟩

/-- A row stuck in UPLOADING, for the C10 witness. -/
def c10Record : StoredInstance :=
  { sop_instance_uid := "U2", storage_path := "q", file_size := 1,
    storage_hash := "h", patient_id := none, patient_name := none,
    accession_number := none, source_aet := "A", status := "STORED",
    upload_status := "UPLOADING", upload_error := none,
    upload_attempt_count := 1, last_upload_attempt := some 0,
    uploaded_at := none, created_at := 0 }

/-- A one-row state holding only the stuck row, for the C10 witness. -/
def c10State : PACSState := ⟨[c10Record], [], 0⟩

/-- An uploader double that accepts everything, for the C10 witness. -/
def c10Uploader : UploaderFn := fun _ _ _ => .ok true

/-- Witness for C10: after a concrete polling cycle the stuck UPLOADING row is
still present, untouched. -/
theorem c10_uploading_row_never_selected_witness :
    c10Record ∈ (run_batches ⟨[]⟩ 3 10 [c10Uploader] c10State).instances :=
  ((c10_uploading_row_never_selected c10State c10Record (by decide) (by decide)
      rfl).2.2 ⟨[]⟩ 3 10 [c10Uploader]).1

end Gateway
